import Mathlib

/-!
# Shallow embedding of the crazy-contest-server backend (src/index.js)

The server is an Express + MongoDB CRUD API.  We embed the document store as
explicit lists of records and each route handler as a pure state-passing
function.  MongoDB `updateOne` updates the first document matching the
filter, so updates are embedded as "update the first list element matching a
boolean predicate".  Aggregation-pipeline updates (`$set` stages) are applied
atomically to the matched document; MongoDB rejects `$divide` by zero, so the
pipeline application is fallible (`Except`), and a rejected store operation in
an `await` with no try/catch means the handler never sends a response (the
`noResponse` outcome below).

Timestamps (`new Date()`, `contest.deadline`) are embedded as `Nat`;
`new Date() < new Date(contest.deadline)` becomes `now < deadline`.
Mongo `ObjectId`s are embedded as `Nat`.  JavaScript falsy-string defaulting
(`x || 'd'`) is embedded as `if x = "" then "d" else x` with `""` standing
for an empty or missing string field.  `winPercentage` (a JS float computed
as `(wins / participatedCount) * 100`) is embedded as `Rat`; exactness of the
arithmetic is not load-bearing for any claim below.
-/

/-- A document of `users_collections` (fields given by `POST /users` plus the
`password` that a registration payload may carry). -/
structure User where
  email : String
  name : String
  photo : String
  password : String
  role : String
  wins : Nat
  participatedCount : Nat
  winPercentage : Rat
  bio : String
  address : String
  deriving DecidableEq, Repr

/-- The embedded `winner` record written by `PUT /contests/declare-winner/:id`. -/
structure Winner where
  email : String
  name : String
  photo : String
  prizeMoney : Nat
  deriving DecidableEq, Repr

/-- A document of `contests_collections`. -/
structure Contest where
  id : Nat
  creatorEmail : String
  status : String
  typ : String
  participantsCount : Nat
  deadline : Nat
  prizeMoney : Nat
  winner : Option Winner
  deriving DecidableEq, Repr

/-- A document of `participated_collections`. -/
structure Participation where
  contestId : Nat
  participantEmail : String
  deriving DecidableEq, Repr

/-- A document of `submissions_collections` (`payload` stands for the
free-form task fields). -/
structure Submission where
  contestId : Nat
  participantEmail : String
  participantName : String
  payload : String
  deriving DecidableEq, Repr

/-- The four collections of `contest_craze_db`. -/
structure DB where
  users : List User
  contests : List Contest
  participations : List Participation
  submissions : List Submission
  deriving DecidableEq, Repr

/-- `updateOne(filter, {$set: ...})`: rewrite the first document matching the
filter, leave everything else untouched. -/
def updateFirst (p : α → Bool) (f : α → α) : List α → List α
  | [] => []
  | x :: xs => if p x then f x :: xs else x :: updateFirst p f xs

/-- `updateOne(filter, pipeline)` for a fallible aggregation pipeline: apply
the pipeline to the first matching document; a pipeline error rejects the
whole operation and changes nothing; zero matched documents is a success. -/
def updateFirstE (p : α → Bool) (f : α → Except String α) : List α → Except String (List α)
  | [] => .ok []
  | x :: xs =>
    if p x then (f x).map (fun y => y :: xs)
    else (updateFirstE p f xs).map (fun ys => x :: ys)

/-- `usersCollection.findOne({ email })`. -/
def findUser (db : DB) (email : String) : Option User :=
  db.users.find? (fun u => u.email == email)

/-- `contestsCollection.findOne({ _id: new ObjectId(id) })`. -/
def findContest (db : DB) (id : Nat) : Option Contest :=
  db.contests.find? (fun c => c.id == id)

/-- Outcome of a route handler: an HTTP error response with its status code
and message, a hung request (`await` rejected with a store error, handler
never responds), or a 2xx success. -/
inductive Outcome where
  | errResp (status : Nat) (message : String)
  | noResponse (storeError : String)
  | ok
  deriving DecidableEq, Repr

/-- The registration payload of `POST /users` (`req.body`): the client sends
its identity fields and may send a `role`; `""` stands for an absent or
empty field. -/
structure RegisterInput where
  email : String
  name : String
  photo : String
  password : String
  role : String
  deriving DecidableEq, Repr

/-- Result of `POST /users`: either the 200 `"User already exists"` response
with `insertedId: null`, or a 201 with the inserted id. -/
inductive RegisterResult where
  | alreadyExists
  | inserted (id : Nat)
  deriving DecidableEq, Repr

/-- The document `POST /users` inserts for a fresh email: the payload spread
together with `role: user.role || 'Normal User'`, zeroed statistics, and
empty `bio`/`address`. -/
def registeredUser (input : RegisterInput) : User :=
  { email := input.email
    name := input.name
    photo := input.photo
    password := input.password
    role := if input.role == "" then "Normal User" else input.role
    wins := 0
    participatedCount := 0
    winPercentage := 0
    bio := ""
    address := "" }

/-- `POST /users`: if a user with the same email exists, send the 200
`"User already exists"` response (`insertedId: null`) and insert nothing;
otherwise insert `registeredUser input`. -/
def registerUser (db : DB) (newId : Nat) (input : RegisterInput) : RegisterResult × DB :=
  match findUser db input.email with
  | some _ => (.alreadyExists, db)
  | none => (.inserted newId, { db with users := db.users ++ [registeredUser input] })

/-- `GET /users/:email` response body: the user document under the
projection `{ password: 0 }`. -/
structure UserView where
  email : String
  name : String
  photo : String
  role : String
  wins : Nat
  participatedCount : Nat
  winPercentage : Rat
  bio : String
  address : String
  deriving DecidableEq, Repr

/-- The projection `{ password: 0 }` applied to a user document. -/
def projectNoPassword (u : User) : UserView :=
  { email := u.email
    name := u.name
    photo := u.photo
    role := u.role
    wins := u.wins
    participatedCount := u.participatedCount
    winPercentage := u.winPercentage
    bio := u.bio
    address := u.address }

/-- `GET /users/:email`: 403 unless the authenticated identity reads itself,
otherwise the found document without its password (or nothing when absent). -/
def getUserProfile (db : DB) (callerEmail targetEmail : String) :
    Outcome × Option UserView :=
  if targetEmail != callerEmail then (.errResp 403 "Forbidden access", none)
  else (.ok, (findUser db targetEmail).map projectNoPassword)

/-- `PUT /users/:email`: 403 unless self; otherwise `$set` only `name`,
`photo` and `address` on the first user matching the email. -/
def updateProfile (db : DB) (callerEmail targetEmail nm ph addr : String) :
    Outcome × DB :=
  if targetEmail != callerEmail then (.errResp 403 "Forbidden access", db)
  else
    (.ok,
      { db with
          users := updateFirst (fun u => u.email == targetEmail)
            (fun u => { u with name := nm, photo := ph, address := addr }) db.users })

/-- The contest-creation payload of `POST /contests` (`req.body`): the client
sends every field, including `status` and `participantsCount`. -/
structure ContestPayload where
  creatorEmail : String
  status : String
  typ : String
  participantsCount : Nat
  deadline : Nat
  prizeMoney : Nat
  deriving DecidableEq, Repr

/-- `POST /contests` behind `verifyToken, verifyCreator`: 403 unless the
authenticated user's stored role is `'Contest Creator'`; otherwise
`insertOne(req.body)` — the payload is stored verbatim. -/
def postContest (db : DB) (callerEmail : String) (newId : Nat)
    (payload : ContestPayload) : Outcome × DB :=
  match findUser db callerEmail with
  | none => (.errResp 403 "Forbidden access", db)
  | some caller =>
    if caller.role != "Contest Creator" then (.errResp 403 "Forbidden access", db)
    else
      let newContest : Contest :=
        { id := newId
          creatorEmail := payload.creatorEmail
          status := payload.status
          typ := payload.typ
          participantsCount := payload.participantsCount
          deadline := payload.deadline
          prizeMoney := payload.prizeMoney
          winner := none }
      (.ok, { db with contests := db.contests ++ [newContest] })

/-- `participatedCollection.findOne({ contestId, participantEmail })`. -/
def findParticipation (db : DB) (contestId : Nat) (email : String) : Option Participation :=
  db.participations.find?
    (fun p => p.contestId == contestId && p.participantEmail == email)

/-- `GET /participated/check/:contestId`: `!!participation` for the
`(contestId, participantEmail)` pair. -/
def checkRegistered (db : DB) (contestId : Nat) (email : String) : Bool :=
  (findParticipation db contestId email).isSome

/-- `POST /participated`: insert the participation, then `$inc` the matched
contest's `participantsCount` and the matched user's `participatedCount`.
There is no existence check before the insert. -/
def recordParticipation (db : DB) (info : Participation) : DB :=
  let db1 := { db with participations := db.participations ++ [info] }
  let db2 :=
    { db1 with
        contests := updateFirst (fun c => c.id == info.contestId)
          (fun c => { c with participantsCount := c.participantsCount + 1 }) db1.contests }
  { db2 with
      users := updateFirst (fun u => u.email == info.participantEmail)
        (fun u => { u with participatedCount := u.participatedCount + 1 }) db2.users }

/-- The submission payload of `POST /submissions` (`req.body`). -/
structure SubmissionInfo where
  contestId : Nat
  participantEmail : String
  payload : String
  deriving DecidableEq, Repr

/-- `user?.name || 'Unknown User'`: the participant name stamped onto a
submission (`""` is a falsy JS string, hence also defaulted). -/
def submissionName (db : DB) (email : String) : String :=
  match findUser db email with
  | some u => if u.name == "" then "Unknown User" else u.name
  | none => "Unknown User"

/-- `POST /submissions`: 403 `'User has not registered for this contest.'`
and no insert unless a matching participation exists; otherwise stamp
`participantName = user?.name || 'Unknown User'` and insert. -/
def recordSubmission (db : DB) (info : SubmissionInfo) : Outcome × DB :=
  match findParticipation db info.contestId info.participantEmail with
  | none => (.errResp 403 "User has not registered for this contest.", db)
  | some _ =>
    (.ok,
      { db with
          submissions := db.submissions ++
            [{ contestId := info.contestId
               participantEmail := info.participantEmail
               participantName := submissionName db info.participantEmail
               payload := info.payload }] })

/-- The aggregation pipeline of the winner-statistics update:
stage 1 `$set { wins: $add ["$wins", 1] }`, stage 2
`$set { winPercentage: $multiply [$divide ["$wins", "$participatedCount"], 100] }`
on the post-stage-1 document.  MongoDB rejects `$divide` by zero, so the
pipeline fails when `participatedCount = 0` and then writes nothing. -/
def applyStatsPipeline (u : User) : Except String User :=
  let u1 := { u with wins := u.wins + 1 }
  if u1.participatedCount == 0 then .error "cant divide by zero"
  else .ok { u1 with winPercentage := (u1.wins : Rat) / (u1.participatedCount : Rat) * 100 }

/-- `usersCollection.updateOne({ email: winnerEmail }, [stage1, stage2])`. -/
def updateWinnerStats (db : DB) (email : String) : Except String DB :=
  (updateFirstE (fun u => u.email == email) applyStatsPipeline db.users).map
    (fun us => { db with users := us })

/-- Step 4's contest update: `$set` the embedded winner record (name, photo
and email from the winner user, prize money snapshotted from the contest)
and `status: 'Closed'` on the first contest matching the id. -/
def setContestWinner (db : DB) (contestId : Nat) (winnerUser : User) (prize : Nat) : DB :=
  { db with
      contests := updateFirst (fun c => c.id == contestId)
        (fun c =>
          { c with
              winner := some
                { email := winnerUser.email
                  name := winnerUser.name
                  photo := winnerUser.photo
                  prizeMoney := prize }
              status := "Closed" }) db.contests }

/-- `PUT /contests/declare-winner/:id` (after `verifyToken, verifyCreator`):
1. find the contest; 403 `'Forbidden or Contest not found'` when absent or
   when `creatorEmail` differs from the caller;
2. 400 `'Contest must be ended and winner not declared.'` when
   `now < deadline` or a winner is already set;
3. 404 `'Winner user not found'` when no user has `winnerEmail`;
4. `$set` the contest's `winner` (prize money snapshotted from the contest)
   and `status: 'Closed'`, then run the statistics pipeline on the winner
   user.  A rejected second update leaves the contest write in place and the
   handler never responds. -/
def declareWinner (db : DB) (contestId : Nat) (callerEmail winnerEmail : String)
    (now : Nat) : Outcome × DB :=
  match findContest db contestId with
  | none => (.errResp 403 "Forbidden or Contest not found", db)
  | some contest =>
    if contest.creatorEmail != callerEmail then
      (.errResp 403 "Forbidden or Contest not found", db)
    else if now < contest.deadline || contest.winner.isSome then
      (.errResp 400 "Contest must be ended and winner not declared.", db)
    else
      match findUser db winnerEmail with
      | none => (.errResp 404 "Winner user not found", db)
      | some winnerUser =>
        let db1 := setContestWinner db contestId winnerUser contest.prizeMoney
        match updateWinnerStats db1 winnerEmail with
        | .error e => (.noResponse e, db1)
        | .ok db2 => (.ok, db2)

/-- Two user documents that agree on every stored field except `password`. -/
def eqExceptPassword (u v : User) : Prop :=
  u.email = v.email ∧ u.name = v.name ∧ u.photo = v.photo ∧ u.role = v.role ∧
  u.wins = v.wins ∧ u.participatedCount = v.participatedCount ∧
  u.winPercentage = v.winPercentage ∧ u.bio = v.bio ∧ u.address = v.address

/-- The user fields a profile update must not touch (everything except
`name`, `photo` and `address`). -/
def nonProfileFields (u : User) : String × String × String × Nat × Nat × Rat × String :=
  (u.email, u.password, u.role, u.wins, u.participatedCount, u.winPercentage, u.bio)

/-!
## Concrete store states used by witnesses and counterexamples
-/

/-- A user document with the given identity, role and statistics, and fixed
filler profile fields. -/
def mkUser (email name role : String) (wins participated : Nat) : User :=
  { email := email, name := name, photo := "p", password := "pw", role := role,
    wins := wins, participatedCount := participated, winPercentage := 0,
    bio := "", address := "" }

def c1Contest : Contest :=
  { id := 1, creatorEmail := "c1@x", status := "Confirmed", typ := "art",
    participantsCount := 0, deadline := 50, prizeMoney := 500, winner := none }

def c1Db : DB :=
  { users := [mkUser "c1@x" "Cara" "Contest Creator" 0 1,
      mkUser "w1@x" "Wim" "Normal User" 0 0],
    contests := [c1Contest], participations := [], submissions := [] }

def c2Contest : Contest :=
  { id := 2, creatorEmail := "c2@x", status := "Confirmed", typ := "art",
    participantsCount := 1, deadline := 10, prizeMoney := 100, winner := none }

def c2Db : DB :=
  { users := [mkUser "c2@x" "Cre" "Contest Creator" 0 1,
      mkUser "w2@x" "Won" "Normal User" 0 2],
    contests := [c2Contest], participations := [], submissions := [] }

def c3Contest : Contest :=
  { id := 3, creatorEmail := "c3@x", status := "Confirmed", typ := "tech",
    participantsCount := 2, deadline := 30, prizeMoney := 250, winner := none }

def c3User : User := mkUser "w3@x" "Wanda" "Normal User" 1 4

def c3Db : DB :=
  { users := [mkUser "c3@x" "Carl" "Contest Creator" 0 0, c3User],
    contests := [c3Contest], participations := [], submissions := [] }

def c4DbNoContest : DB :=
  { users := [mkUser "a4@x" "Ann" "Contest Creator" 0 0],
    contests := [], participations := [], submissions := [] }

def c4Contest : Contest :=
  { id := 4, creatorEmail := "b4@x", status := "Confirmed", typ := "art",
    participantsCount := 0, deadline := 5, prizeMoney := 10, winner := none }

def c4DbWrongCreator : DB :=
  { users := [mkUser "a4@x" "Ann" "Contest Creator" 0 0],
    contests := [c4Contest], participations := [], submissions := [] }

def c5Db : DB :=
  { users := [mkUser "c5@x" "Cy" "Contest Creator" 0 0],
    contests := [], participations := [], submissions := [] }

def c5Payload : ContestPayload :=
  { creatorEmail := "c5@x", status := "Confirmed", typ := "art",
    participantsCount := 7, deadline := 99, prizeMoney := 40 }

def c6Info : Participation := { contestId := 6, participantEmail := "p6@x" }

def c6Contest : Contest :=
  { id := 6, creatorEmail := "c6@x", status := "Confirmed", typ := "art",
    participantsCount := 0, deadline := 9, prizeMoney := 5, winner := none }

def c6Db : DB :=
  { users := [mkUser "p6@x" "Pat" "Normal User" 0 0],
    contests := [c6Contest],
    participations := [], submissions := [] }

def c7Input : RegisterInput :=
  { email := "a7@x", name := "Adm", photo := "p", password := "pw", role := "Admin" }

def c7EmptyDb : DB :=
  { users := [], contests := [], participations := [], submissions := [] }

def c7WitDb : DB :=
  { users := [mkUser "u7@x" "Old" "Normal User" 2 5],
    contests := [], participations := [], submissions := [] }

def c7WitInput : RegisterInput :=
  { email := "n7@x", name := "New", photo := "p", password := "pw", role := "" }

def c8User : User := mkUser "e8@x" "Eve" "Normal User" 1 2

def c8Db : DB :=
  { users := [c8User], contests := [], participations := [], submissions := [] }

def c8Input : RegisterInput :=
  { email := "e8@x", name := "Other", photo := "q", password := "zz", role := "Admin" }

def c9EmptyNameUser : User := mkUser "p9@x" "" "Normal User" 0 1

def c9Db : DB :=
  { users := [c9EmptyNameUser], contests := [],
    participations := [{ contestId := 9, participantEmail := "p9@x" }],
    submissions := [] }

def c9Info : SubmissionInfo :=
  { contestId := 9, participantEmail := "p9@x", payload := "work" }

def c9WitUser : User := mkUser "q9@x" "Quinn" "Normal User" 0 1

def c9WitDb : DB :=
  { users := [c9WitUser], contests := [],
    participations := [{ contestId := 19, participantEmail := "q9@x" }],
    submissions := [] }

def c9WitInfo : SubmissionInfo :=
  { contestId := 19, participantEmail := "q9@x", payload := "essay" }

def c10UserA : User := mkUser "s@x" "Sam" "Normal User" 1 2

def c10UserB : User := { c10UserA with password := "hunter2" }

def c10DbA : DB :=
  { users := [c10UserA], contests := [], participations := [], submissions := [] }

def c10DbB : DB :=
  { users := [c10UserB], contests := [], participations := [], submissions := [] }

/-!
## Generic lemmas about the embedded store operations
-/

theorem find?_updateFirst (p : α → Bool) (f : α → α) (l : List α)
    (hf : ∀ a, p a = true → p (f a) = true) :
    List.find? p (updateFirst p f l) = (List.find? p l).map f := by
  induction l with
  | nil => rfl
  | cons a as ih =>
    cases ha : p a with
    | true =>
      simp [updateFirst, ha, List.find?_cons_of_pos _ ha,
        List.find?_cons_of_pos _ (hf a ha)]
    | false =>
      have hna : ¬ p a = true := by simp [ha]
      simp [updateFirst, ha, List.find?_cons_of_neg _ hna, ih]

theorem map_updateFirst (g : α → β) (p : α → Bool) (f : α → α) (l : List α)
    (hf : ∀ a, g (f a) = g a) :
    (updateFirst p f l).map g = l.map g := by
  induction l with
  | nil => rfl
  | cons a as ih =>
    cases ha : p a with
    | true => simp [updateFirst, ha, hf]
    | false => simp [updateFirst, ha, ih]

theorem updateFirstE_of_find?_none (p : α → Bool) (f : α → Except String α)
    (l : List α) (h : List.find? p l = none) : updateFirstE p f l = .ok l := by
  induction l with
  | nil => rfl
  | cons a as ih =>
    cases ha : p a with
    | true => rw [List.find?_cons_of_pos _ ha] at h; cases h
    | false =>
      have hna : ¬ p a = true := by simp [ha]
      rw [List.find?_cons_of_neg _ hna] at h
      simp [updateFirstE, ha, ih h, Except.map]

theorem updateFirstE_of_find?_some (p : α → Bool) (f : α → Except String α)
    (l : List α) (x : α) (hx : List.find? p l = some x) :
    updateFirstE p f l = (f x).map (fun y => updateFirst p (fun _ => y) l) := by
  induction l with
  | nil => cases hx
  | cons a as ih =>
    cases ha : p a with
    | true =>
      rw [List.find?_cons_of_pos _ ha] at hx
      injection hx with hx
      subst hx
      cases hfa : f a <;> simp [updateFirstE, updateFirst, ha, hfa, Except.map]
    | false =>
      have hna : ¬ p a = true := by simp [ha]
      rw [List.find?_cons_of_neg _ hna] at hx
      cases hfx : f x <;> simp [updateFirstE, updateFirst, ha, ih hx, hfx, Except.map]

theorem setContestWinner_users (db : DB) (cid : Nat) (wu : User) (prize : Nat) :
    (setContestWinner db cid wu prize).users = db.users := rfl

theorem findContest_setContestWinner (db : DB) (cid : Nat) (wu : User) (prize : Nat) :
    findContest (setContestWinner db cid wu prize) cid =
      (findContest db cid).map (fun c =>
        { c with
            winner := some
              { email := wu.email
                name := wu.name
                photo := wu.photo
                prizeMoney := prize }
            status := "Closed" }) :=
  find?_updateFirst _ _ _ (fun _ ha => ha)

theorem updateWinnerStats_ok_parts (db : DB) (we : String) (db2 : DB)
    (h : updateWinnerStats db we = .ok db2) :
    db2.contests = db.contests ∧ db2.participations = db.participations ∧
      db2.submissions = db.submissions := by
  unfold updateWinnerStats at h
  cases hE : updateFirstE (fun u => u.email == we) applyStatsPipeline db.users with
  | error e => rw [hE] at h; cases h
  | ok us =>
    rw [hE] at h
    injection h with h
    subst h
    exact ⟨rfl, rfl, rfl⟩

theorem updateWinnerStats_of_findUser (db : DB) (we : String) (u : User)
    (hu : findUser db we = some u) :
    updateWinnerStats db we =
      (applyStatsPipeline u).map (fun u2 =>
        { db with users := updateFirst (fun v => v.email == we) (fun _ => u2) db.users }) := by
  unfold findUser at hu
  unfold updateWinnerStats
  rw [updateFirstE_of_find?_some _ _ _ u hu]
  cases applyStatsPipeline u <;> rfl

theorem applyStatsPipeline_divzero (u : User) (h : u.participatedCount = 0) :
    applyStatsPipeline u = .error "cant divide by zero" := by
  unfold applyStatsPipeline
  simp [h]

theorem applyStatsPipeline_ok (u : User) (h : ¬ u.participatedCount = 0) :
    applyStatsPipeline u =
      .ok { u with
              wins := u.wins + 1
              winPercentage :=
                ((u.wins + 1 : Nat) : Rat) / (u.participatedCount : Rat) * 100 } := by
  unfold applyStatsPipeline
  simp [h]

theorem declareWinner_gate_fail (db : DB) (cid : Nat) (caller we : String) (now : Nat)
    (c : Contest) (hc : findContest db cid = some c) (hb : c.creatorEmail = caller)
    (hfail : now < c.deadline ∨ c.winner ≠ none) :
    declareWinner db cid caller we now =
      (.errResp 400 "Contest must be ended and winner not declared.", db) := by
  unfold declareWinner
  rw [hc]
  have hcond : (decide (now < c.deadline) || c.winner.isSome) = true := by
    rcases hfail with h | h
    · simp [h]
    · simp [Option.isSome_iff_ne_none, h]
  simp [hb, hcond]

theorem declareWinner_ok_cases (db : DB) (cid : Nat) (caller we : String) (now : Nat)
    (h : (declareWinner db cid caller we now).fst = .ok) :
    ∃ c u db2,
      findContest db cid = some c ∧ c.creatorEmail = caller ∧
      ¬ now < c.deadline ∧ c.winner = none ∧ findUser db we = some u ∧
      updateWinnerStats (setContestWinner db cid u c.prizeMoney) we = .ok db2 ∧
      (declareWinner db cid caller we now).snd = db2 := by
  unfold declareWinner at h ⊢
  cases hc : findContest db cid with
  | none => rw [hc] at h; simp at h
  | some c =>
    rw [hc] at h
    by_cases hb : c.creatorEmail = caller
    case neg => simp [hb] at h
    case pos =>
      cases hw : c.winner with
      | some w => simp [hb, hw] at h
      | none =>
        by_cases hd : now < c.deadline
        · simp [hb, hw, hd] at h
        · cases hu : findUser db we with
          | none => simp [hb, hw, hd, hu] at h
          | some u =>
            simp only [hu] at h
            cases hs : updateWinnerStats (setContestWinner db cid u c.prizeMoney) we with
            | error e => simp [hb, hw, hd, hs] at h
            | ok db2 =>
              exact ⟨c, u, db2, rfl, hb, hd, hw, rfl, hs, by simp [hb, hw, hd, hs]⟩

theorem findContest_congr (db1 db2 : DB) (cid : Nat) (h : db1.contests = db2.contests) :
    findContest db1 cid = findContest db2 cid := by
  unfold findContest
  rw [h]

theorem projectNoPassword_congr (u v : User) (h : eqExceptPassword u v) :
    projectNoPassword u = projectNoPassword v := by
  obtain ⟨h1, h2, h3, h4, h5, h6, h7, h8, h9⟩ := h
  unfold projectNoPassword
  rw [h1, h2, h3, h4, h5, h6, h7, h8, h9]

theorem find?_map_projectNoPassword (l1 l2 : List User) (e : String)
    (h : List.Forall₂ eqExceptPassword l1 l2) :
    (l1.find? (fun u => u.email == e)).map projectNoPassword =
      (l2.find? (fun u => u.email == e)).map projectNoPassword := by
  induction h with
  | nil => rfl
  | @cons a b t1 t2 hab htail ih =>
    have he : a.email = b.email := hab.1
    cases hae : a.email == e with
    | true =>
      have hbe : (b.email == e) = true := by rw [← he]; exact hae
      simp only [List.find?, hae, hbe]
      simp [projectNoPassword_congr a b hab]
    | false =>
      have hbe : (b.email == e) = false := by rw [← he]; exact hae
      simp only [List.find?, hae, hbe]
      exact ih

/-!
## The claims
-/

/-- Claim C1 (code bug in the source): the claim requires that declaring a
winner whose `participatedCount` is 0 store `winPercentage = 0` and never
divide by zero.  The handler instead runs the aggregation stage
`$divide: ["$wins", "$participatedCount"]` unconditionally: with
`participatedCount = 0` the store rejects the update, so the winner's user
document keeps its old statistics (`wins` is not incremented, no
`winPercentage` is stored), the handler never sends a response, and the
contest document has already been marked Closed — a partial write. -/
theorem c1_zero_participation_divides_by_zero :
    (declareWinner c1Db 1 "c1@x" "w1@x" 100).fst = .noResponse "cant divide by zero" ∧
    findUser (declareWinner c1Db 1 "c1@x" "w1@x" 100).snd "w1@x" =
      some (mkUser "w1@x" "Wim" "Normal User" 0 0) ∧
    (findContest (declareWinner c1Db 1 "c1@x" "w1@x" 100).snd 1).map Contest.status =
      some "Closed" :=
  ⟨by decide, by decide, by decide⟩

/-- Claim C8: re-registering an email that already has a User record inserts
nothing, leaves the whole store (hence the existing record) unchanged, and
returns the 200 "User already exists" acknowledgement rather than an
error. -/
theorem c8_registration_idempotent (db : DB) (newId : Nat) (input : RegisterInput)
    (u : User) (hu : findUser db input.email = some u) :
    registerUser db newId input = (.alreadyExists, db) := by
  unfold registerUser
  rw [hu]

/-- Witness for C8: re-registering the concrete existing email "e8@x" (even
with different payload fields) is a no-op reporting `alreadyExists`. -/
theorem c8_registration_idempotent_witness :
    registerUser c8Db 9 c8Input = (.alreadyExists, c8Db) :=
  c8_registration_idempotent c8Db 9 c8Input c8User (by decide)

/-- Counterexample to claim C4: a missing contest and an existing contest
owned by someone else produce the identical HTTP 403 response
`'Forbidden or Contest not found'` — the two failure kinds are not
distinguishable by the caller. -/
theorem c4_counterexample :
    declareWinner c4DbNoContest 4 "a4@x" "w@x" 100 =
      (.errResp 403 "Forbidden or Contest not found", c4DbNoContest) ∧
    declareWinner c4DbWrongCreator 4 "a4@x" "w@x" 100 =
      (.errResp 403 "Forbidden or Contest not found", c4DbWrongCreator) :=
  ⟨by decide, by decide⟩

/-- Claim C4 amended: declareWinner fails when the contest is absent and when
the contest's creatorEmail differs from the caller, but both failures
surface as one and the same indistinguishable response (403,
"Forbidden or Contest not found"), and nothing is written. -/
theorem c4_notfound_forbidden_merged (db : DB) (cid : Nat) (caller we : String)
    (now : Nat)
    (h : findContest db cid = none ∨
      ∃ c, findContest db cid = some c ∧ c.creatorEmail ≠ caller) :
    declareWinner db cid caller we now =
      (.errResp 403 "Forbidden or Contest not found", db) := by
  unfold declareWinner
  rcases h with h | ⟨c, hc, hne⟩
  · rw [h]
  · rw [hc]
    simp [hne]

/-- Witness for the amended C4 at a concrete store with no contest 4. -/
theorem c4_notfound_forbidden_merged_witness :
    declareWinner c4DbNoContest 4 "a4@x" "v@x" 100 =
      (.errResp 403 "Forbidden or Contest not found", c4DbNoContest) :=
  c4_notfound_forbidden_merged c4DbNoContest 4 "a4@x" "v@x" 100 (Or.inl (by decide))

/-- Counterexample to claim C5: `POST /contests` inserts `req.body` verbatim;
a Creator-supplied payload with `status: 'Confirmed'` and
`participantsCount: 7` is stored exactly so — status is not forced to
Pending and participantsCount is not initialized to 0. -/
theorem c5_counterexample :
    (postContest c5Db "c5@x" 11 c5Payload).fst = .ok ∧
    (findContest (postContest c5Db "c5@x" 11 c5Payload).snd 11).map Contest.status =
      some "Confirmed" ∧
    (findContest (postContest c5Db "c5@x" 11 c5Payload).snd 11).map
        Contest.participantsCount = some 7 :=
  ⟨by decide, by decide, by decide⟩

/-- Claim C5 amended: for an authorized Creator, contest creation appends the
caller-supplied payload verbatim — the stored `status` and
`participantsCount` are whatever the payload contains (the server neither
forces Pending nor zeroes the counter). -/
theorem c5_payload_stored_verbatim (db : DB) (caller : String) (newId : Nat)
    (p : ContestPayload) (u : User)
    (hu : findUser db caller = some u) (hrole : u.role = "Contest Creator") :
    postContest db caller newId p =
      (.ok,
        { db with
            contests := db.contests ++
              [{ id := newId
                 creatorEmail := p.creatorEmail
                 status := p.status
                 typ := p.typ
                 participantsCount := p.participantsCount
                 deadline := p.deadline
                 prizeMoney := p.prizeMoney
                 winner := none }] }) := by
  unfold postContest
  rw [hu]
  simp [hrole]

/-- Witness for the amended C5: the concrete Creator-submitted payload with
status Confirmed and participantsCount 7 is stored verbatim. -/
theorem c5_payload_stored_verbatim_witness :
    postContest c5Db "c5@x" 11 c5Payload =
      (.ok,
        { c5Db with
            contests := c5Db.contests ++
              [{ id := 11
                 creatorEmail := c5Payload.creatorEmail
                 status := c5Payload.status
                 typ := c5Payload.typ
                 participantsCount := c5Payload.participantsCount
                 deadline := c5Payload.deadline
                 prizeMoney := c5Payload.prizeMoney
                 winner := none }] }) :=
  c5_payload_stored_verbatim c5Db "c5@x" 11 c5Payload
    (mkUser "c5@x" "Cy" "Contest Creator" 0 0) (by decide) rfl

/-- Counterexample to claim C6: `POST /participated` performs no existence
check — recording the same (contestId, participantEmail) pair twice stores
two Participation records for that pair. -/
theorem c6_counterexample :
    ((recordParticipation (recordParticipation c6Db c6Info) c6Info).participations.filter
      (fun p => p.contestId == 6 && p.participantEmail == "p6@x")).length = 2 := by
  decide

/-- Claim C6 amended: recordParticipation appends its Participation
unconditionally, with no application-level existence check (duplicates for a
pair are possible); the separate checkRegistered query is what reports
whether a pair already has a Participation. -/
theorem c6_insert_unconditional (db : DB) (info : Participation) :
    (recordParticipation db info).participations = db.participations ++ [info] ∧
    (checkRegistered db info.contestId info.participantEmail = true ↔
      ∃ p ∈ db.participations,
        p.contestId = info.contestId ∧ p.participantEmail = info.participantEmail) := by
  constructor
  · rfl
  · unfold checkRegistered findParticipation
    simp [List.find?_isSome]

/-- Counterexample to claim C7: registration takes the role from
user-supplied input — a registrant sending role "Admin" is stored with role
"Admin", so the registrant does choose their role. -/
theorem c7_counterexample :
    (findUser (registerUser c7EmptyDb 1 c7Input).snd "a7@x").map User.role =
      some "Admin" := by
  decide

/-- Claim C7 amended: profile update writes only name, photo and address —
every other field of every stored user is unchanged — and registration
forces the statistics fields (wins, participatedCount, winPercentage) to 0;
however the stored role is taken from the caller-supplied payload (default
'Normal User' only when it is empty/absent), so the registrant does choose
their role. -/
theorem c7_profile_frame_and_registration (db : DB)
    (caller target nm ph addr : String) (newId : Nat) (input : RegisterInput)
    (hnew : findUser db input.email = none) :
    ((updateProfile db caller target nm ph addr).snd.users).map nonProfileFields =
      db.users.map nonProfileFields ∧
    registerUser db newId input =
      (.inserted newId, { db with users := db.users ++ [registeredUser input] }) ∧
    (registeredUser input).wins = 0 ∧
    (registeredUser input).participatedCount = 0 ∧
    (registeredUser input).winPercentage = 0 ∧
    (registeredUser input).role =
      (if input.role = "" then "Normal User" else input.role) := by
  refine ⟨?_, ?_, rfl, rfl, rfl, ?_⟩
  · unfold updateProfile
    by_cases hne : target = caller
    · simp only [hne, bne_self_eq_false, Bool.false_eq_true, if_false]
      exact map_updateFirst _ _ _ _ (fun a => rfl)
    · have : (target != caller) = true := by simp [hne]
      simp [this]
  · unfold registerUser
    rw [hnew]
  · by_cases hr : input.role = "" <;> simp [registeredUser, hr]

/-- Witness for the amended C7 at a concrete store: a self profile update
changes none of the protected fields, and registering a fresh email with an
empty role stores zeroed statistics and the default role. -/
theorem c7_profile_frame_and_registration_witness :
    ((updateProfile c7WitDb "u7@x" "u7@x" "NewName" "NewPhoto" "NewAddr").snd.users).map
        nonProfileFields = c7WitDb.users.map nonProfileFields ∧
    registerUser c7WitDb 2 c7WitInput =
      (.inserted 2, { c7WitDb with users := c7WitDb.users ++ [registeredUser c7WitInput] }) ∧
    (registeredUser c7WitInput).wins = 0 ∧
    (registeredUser c7WitInput).participatedCount = 0 ∧
    (registeredUser c7WitInput).winPercentage = 0 ∧
    (registeredUser c7WitInput).role =
      (if c7WitInput.role = "" then "Normal User" else c7WitInput.role) :=
  c7_profile_frame_and_registration c7WitDb "u7@x" "u7@x" "NewName" "NewPhoto"
    "NewAddr" 2 c7WitInput (by decide)

/-- Counterexample to claim C9: the participant's User record exists but its
stored name is the empty (falsy) string; the claim says participantName is
taken from that record, yet the code's `user?.name || 'Unknown User'`
stores "Unknown User" instead of the record's name. -/
theorem c9_counterexample :
    findUser c9Db "p9@x" = some c9EmptyNameUser ∧
    c9EmptyNameUser.name = "" ∧
    ((recordSubmission c9Db c9Info).snd.submissions.map Submission.participantName) =
      ["Unknown User"] :=
  ⟨by decide, rfl, by decide⟩

/-- Claim C9 amended: recordSubmission fails NotRegistered (403) and inserts
nothing when no matching Participation exists; otherwise it inserts the
submission with participantName taken from the User record for that email,
defaulting to "Unknown User" when that record is absent or its stored name
is empty (the code treats a falsy name like a missing record). -/
theorem c9_submission_gate_and_name (db : DB) (info : SubmissionInfo) (u : User) :
    (findParticipation db info.contestId info.participantEmail = none →
      recordSubmission db info =
        (.errResp 403 "User has not registered for this contest.", db)) ∧
    (findParticipation db info.contestId info.participantEmail ≠ none →
      recordSubmission db info =
        (.ok,
          { db with
              submissions := db.submissions ++
                [{ contestId := info.contestId
                   participantEmail := info.participantEmail
                   participantName := submissionName db info.participantEmail
                   payload := info.payload }] })) ∧
    (findUser db info.participantEmail = none →
      submissionName db info.participantEmail = "Unknown User") ∧
    (findUser db info.participantEmail = some u → ¬ u.name = "" →
      submissionName db info.participantEmail = u.name) ∧
    (findUser db info.participantEmail = some u → u.name = "" →
      submissionName db info.participantEmail = "Unknown User") := by
  refine ⟨?_, ?_, ?_, ?_, ?_⟩
  · intro h
    unfold recordSubmission
    rw [h]
  · intro h
    unfold recordSubmission
    cases hp : findParticipation db info.contestId info.participantEmail with
    | none => exact absurd hp h
    | some q => rfl
  · intro h
    unfold submissionName
    rw [h]
  · intro h hne
    unfold submissionName
    rw [h]
    simp [hne]
  · intro h he
    unfold submissionName
    rw [h]
    simp [he]

/-- Witness for the amended C9: with a registered participant whose stored
name is "Quinn", the submission is inserted and stamped with that name. -/
theorem c9_submission_gate_and_name_witness :
    recordSubmission c9WitDb c9WitInfo =
      (.ok,
        { c9WitDb with
            submissions := c9WitDb.submissions ++
              [{ contestId := c9WitInfo.contestId
                 participantEmail := c9WitInfo.participantEmail
                 participantName := submissionName c9WitDb c9WitInfo.participantEmail
                 payload := c9WitInfo.payload }] }) ∧
    submissionName c9WitDb "q9@x" = "Quinn" :=
  ⟨(c9_submission_gate_and_name c9WitDb c9WitInfo c9WitUser).2.1 (by decide),
    (c9_submission_gate_and_name c9WitDb c9WitInfo c9WitUser).2.2.2.1 (by decide)
      (by decide)⟩

/-- Claim C2: for a contest owned by the caller, declareWinner succeeds only
when now is at or after the contest's deadline and no winner is set; when
that eligibility gate fails it returns the 400 InvalidState response and
writes nothing; and after a successful call, a second declareWinner on the
same contest fails with that same InvalidState response. -/
theorem c2_eligibility_gate (db : DB) (cid : Nat) (caller we1 we2 : String)
    (now1 now2 : Nat) (c : Contest)
    (hc : findContest db cid = some c) (hown : c.creatorEmail = caller) :
    ((declareWinner db cid caller we1 now1).fst = .ok →
      c.deadline ≤ now1 ∧ c.winner = none) ∧
    ((now1 < c.deadline ∨ c.winner ≠ none) →
      declareWinner db cid caller we1 now1 =
        (.errResp 400 "Contest must be ended and winner not declared.", db)) ∧
    ((declareWinner db cid caller we1 now1).fst = .ok →
      (declareWinner (declareWinner db cid caller we1 now1).snd cid caller we2 now2).fst =
        .errResp 400 "Contest must be ended and winner not declared.") := by
  refine ⟨?_, fun hfail => declareWinner_gate_fail db cid caller we1 now1 c hc hown hfail, ?_⟩
  · intro h
    obtain ⟨c2, u, db2, hc2, hb2, hd2, hw2, hu2, hs2, hsnd⟩ :=
      declareWinner_ok_cases db cid caller we1 now1 h
    rw [hc] at hc2
    injection hc2 with hc2
    subst hc2
    exact ⟨Nat.le_of_not_lt hd2, hw2⟩
  · intro h
    obtain ⟨c2, u, db2, hc2, hb2, hd2, hw2, hu2, hs2, hsnd⟩ :=
      declareWinner_ok_cases db cid caller we1 now1 h
    rw [hc] at hc2
    injection hc2 with hc2
    subst hc2
    rw [hsnd]
    have hcont : db2.contests = (setContestWinner db cid u c.prizeMoney).contests :=
      (updateWinnerStats_ok_parts _ _ _ hs2).1
    have hfc2 : findContest db2 cid =
        some { c with
                 winner := some
                   { email := u.email
                     name := u.name
                     photo := u.photo
                     prizeMoney := c.prizeMoney }
                 status := "Closed" } := by
      rw [findContest_congr db2 (setContestWinner db cid u c.prizeMoney) cid hcont,
        findContest_setContestWinner, hc]
      rfl
    rw [declareWinner_gate_fail db2 cid caller we2 now2 _ hfc2 hown
      (Or.inr (by simp))]

/-- Witness for C2 at a concrete store: the first declareWinner (deadline
passed, winner unset, caller owns contest 2) succeeds, and a second call on
the same contest fails with the 400 InvalidState response. -/
theorem c2_eligibility_gate_witness :
    (declareWinner c2Db 2 "c2@x" "w2@x" 20).fst = .ok ∧
    (declareWinner (declareWinner c2Db 2 "c2@x" "w2@x" 20).snd 2 "c2@x" "x2@x" 30).fst =
      .errResp 400 "Contest must be ended and winner not declared." := by
  have h1 : (declareWinner c2Db 2 "c2@x" "w2@x" 20).fst = .ok := by decide
  exact ⟨h1,
    (c2_eligibility_gate c2Db 2 "c2@x" "w2@x" "x2@x" 20 30 c2Contest (by decide) rfl).2.2 h1⟩

/-- Claim C3: after every successful declareWinner, the contest document is
Closed with an embedded winner record whose email is the requested
winnerEmail and whose prizeMoney is the contest's prizeMoney snapshotted at
declaration time, and the winner user's wins is exactly one greater than its
pre-call value. -/
theorem c3_success_postconditions (db : DB) (cid : Nat) (caller we : String)
    (now : Nat) (c : Contest) (u : User)
    (hc : findContest db cid = some c) (hu : findUser db we = some u)
    (hok : (declareWinner db cid caller we now).fst = .ok) :
    findContest (declareWinner db cid caller we now).snd cid =
      some { c with
               winner := some
                 { email := we
                   name := u.name
                   photo := u.photo
                   prizeMoney := c.prizeMoney }
               status := "Closed" } ∧
    findUser (declareWinner db cid caller we now).snd we =
      some { u with
               wins := u.wins + 1
               winPercentage :=
                 ((u.wins + 1 : Nat) : Rat) / (u.participatedCount : Rat) * 100 } := by
  obtain ⟨c2, u2, db2, hc2, hb2, hd2, hw2, hu2, hs2, hsnd⟩ :=
    declareWinner_ok_cases db cid caller we now hok
  rw [hc] at hc2
  injection hc2 with hc2
  subst hc2
  rw [hu] at hu2
  injection hu2 with hu2
  subst hu2
  rw [hsnd]
  have hue : u.email = we := by
    have hu0 : db.users.find? (fun v => v.email == we) = some u := hu
    have hbeq := List.find?_some (p := fun (v : User) => v.email == we) hu0
    exact eq_of_beq hbeq
  have hfu1 : findUser (setContestWinner db cid u c.prizeMoney) we = some u := hu
  rw [updateWinnerStats_of_findUser _ _ _ hfu1] at hs2
  by_cases h0 : u.participatedCount = 0
  · rw [applyStatsPipeline_divzero u h0] at hs2
    cases hs2
  · rw [applyStatsPipeline_ok u h0] at hs2
    simp only [Except.map] at hs2
    injection hs2 with hs2
    subst hs2
    constructor
    · have hgoal := findContest_setContestWinner db cid u c.prizeMoney
      have heq : findContest
          { setContestWinner db cid u c.prizeMoney with
              users := updateFirst (fun v => v.email == we)
                (fun _ => { u with
                              wins := u.wins + 1
                              winPercentage :=
                                ((u.wins + 1 : Nat) : Rat) /
                                  (u.participatedCount : Rat) * 100 })
                (setContestWinner db cid u c.prizeMoney).users } cid =
          findContest (setContestWinner db cid u c.prizeMoney) cid :=
        findContest_congr _ _ cid rfl
      rw [heq, hgoal, hc, hue]
      rfl
    · show (updateFirst (fun v => v.email == we)
          (fun _ => { u with
                        wins := u.wins + 1
                        winPercentage :=
                          ((u.wins + 1 : Nat) : Rat) /
                            (u.participatedCount : Rat) * 100 })
          db.users).find? (fun v => v.email == we) = _
      rw [find?_updateFirst _ _ _ (fun a ha => by simp [hue])]
      have hu0 : db.users.find? (fun v => v.email == we) = some u := hu
      rw [hu0]
      rfl

/-- Witness for C3 at a concrete store: creator "c3@x" declares "w3@x"
(wins 1, participatedCount 4) winner of contest 3 at its deadline; the
contest closes with the snapshotted prize and the user's wins become 2. -/
theorem c3_success_postconditions_witness :
    findContest (declareWinner c3Db 3 "c3@x" "w3@x" 30).snd 3 =
      some { c3Contest with
               winner := some
                 { email := "w3@x"
                   name := c3User.name
                   photo := c3User.photo
                   prizeMoney := c3Contest.prizeMoney }
               status := "Closed" } ∧
    findUser (declareWinner c3Db 3 "c3@x" "w3@x" 30).snd "w3@x" =
      some { c3User with
               wins := c3User.wins + 1
               winPercentage :=
                 ((c3User.wins + 1 : Nat) : Rat) /
                   (c3User.participatedCount : Rat) * 100 } :=
  c3_success_postconditions c3Db 3 "c3@x" "w3@x" 30 c3Contest c3User
    (by decide) (by decide) (by decide)

/-- Claim C10: the self-read of a user profile applies the projection
`{ password: 0 }` — stored user documents that differ only in their password
field produce identical responses, so the response never depends on (and in
particular never contains) the stored password. -/
theorem c10_password_noninterference (db1 db2 : DB) (e : String)
    (h : List.Forall₂ eqExceptPassword db1.users db2.users) :
    getUserProfile db1 e e = getUserProfile db2 e e := by
  unfold getUserProfile
  rw [if_neg (by simp : ¬ (e != e) = true), if_neg (by simp : ¬ (e != e) = true)]
  unfold findUser
  rw [find?_map_projectNoPassword db1.users db2.users e h]

/-- Witness for C10: two one-user stores whose only difference is the stored
password produce identical profile-read responses. -/
theorem c10_password_noninterference_witness :
    c10UserA.password ≠ c10UserB.password ∧
    getUserProfile c10DbA "s@x" "s@x" = getUserProfile c10DbB "s@x" "s@x" :=
  ⟨by decide,
    c10_password_noninterference c10DbA c10DbB "s@x"
      (List.Forall₂.cons ⟨rfl, rfl, rfl, rfl, rfl, rfl, rfl, rfl, rfl⟩ List.Forall₂.nil)⟩
